import Mathlib

/-!
Verification of the construction-time binding logic and lifecycle contract of
`eensight.workflow.steps._base.WorkflowStep`.

The Python class is embedded shallowly:

* Python `dict` values are association lists `List (String × String)`; the
  dicts the caller passes in have unique keys by construction in Python, and
  the dict comprehension `{val: val for val in lst}` is modelled by a fold
  with Python's key-overwrite semantics (`dictInsert`).
* Optional arguments (`default=None`) are `Option _`; Python truthiness of a
  possibly-`None` dict (`if not requires:`) and of a possibly-`None` string
  (`if ml_stage:`) are made explicit (`pyFalsyDict`, `suffixStage`).
* `__init__` is translated line by line as `WorkflowStep.initTraced`, which
  also returns a trace of the observable actions construction performs: the
  `self.<attr> = ...` assignments, and (were there any) catalog operations,
  tracking-backend operations, or mutations of argument mappings.  The source
  performs only the eleven attribute assignments, all after the tracking
  validation check, so an error trace is empty.
* The single `raise ValueError` at construction is the spec's
  invalid-configuration error kind; the `raise NotImplementedError` in
  `execute` is the unimplemented-operation kind.
-/

namespace GbMeter

/-- A Python `Dict[str, str]` as an association list (insertion order kept). -/
abbrev PyDict := List (String × String)

/-- Python dict assignment `d[k] = v`: overwrite in place if the key exists
(keeping its position), else append at the end. -/
def dictInsert (d : PyDict) (k v : String) : PyDict :=
  if d.any (fun p => p.1 == k) then
    d.map (fun p => if p.1 == k then (k, v) else p)
  else d ++ [(k, v)]

/-- The dict comprehension over a list of base names, with each name mapped to
itself. -/
def pyDictComp (l : List String) : PyDict :=
  l.foldl (fun d v => dictInsert d v v) []

/-- Python truthiness test `not requires` for an argument that is either
absent (None) or an explicit dict: `None` and the empty dict are falsy. -/
def pyFalsyDict : Option PyDict → Bool
  | none => true
  | some d => d.isEmpty

/-- Lines 66-67 / 71-72 of the source, one side at a time:
if the explicit mapping is falsy, synthesize the identity mapping over the
class-level default list, else keep the explicit mapping. -/
def resolveSide (defaults : List String) (explicit : Option PyDict) : PyDict :=
  if pyFalsyDict explicit then pyDictComp defaults else explicit.getD []

/-- Lines 68 / 73-74 of the source: if `ml_stage` is truthy (a non-empty
string), rewrite every value to the f-string interpolation of the value, an
underscore and the stage; keys are untouched.  A falsy stage (None or the
empty string) leaves the mapping unchanged. -/
def suffixStage : Option String → PyDict → PyDict
  | some s, m => if s = "" then m else m.map (fun p => (p.1, p.2 ++ "_" ++ s))
  | none, m => m

/-- The two error kinds of the component: the invalid-configuration error
raised at construction, and the unimplemented-operation error raised by the
default `execute` body. -/
inductive StepError where
  | configurationError (msg : String)
  | notImplementedError (msg : String)
deriving DecidableEq, Repr

/-- One observable action of `__init__`: an attribute assignment on `self`, a
catalog operation, a tracking-backend call, or a mutation of an argument
mapping.  Only assignments occur in the source. -/
inductive TraceEvent where
  | assign (attr : String)
  | catalogOp (op : String)
  | trackingOp (op : String)
  | mutateArg (arg : String)
deriving DecidableEq, Repr

/-- Whether a trace event is a plain attribute assignment on `self`. -/
def TraceEvent.isAssign : TraceEvent → Bool
  | .assign _ => true
  | _ => false

/-- The arguments of `WorkflowStep.__init__`.  `catalog` and `parameters` are
opaque references (modelled as handles); every other argument defaults to
`None` in the source, so each is an `Option`.  `tags` has opaque values,
modelled like the other string dicts. -/
structure InitArgs where
  catalog : Nat
  parameters : Nat
  name : Option String
  requires : Option PyDict
  provides : Option PyDict
  ml_stage : Option String
  rebind : Option PyDict
  run_id : Option String
  tracking_uri : Option String
  experiment_name : Option String
  tags : Option PyDict
deriving DecidableEq, Repr

/-- The constructed instance: the eleven attributes `__init__` populates. -/
structure StepInstance where
  catalog : Nat
  parameters : Nat
  name : Option String
  requires : PyDict
  provides : PyDict
  ml_stage : Option String
  rebind : PyDict
  run_id : Option String
  tracking_uri : Option String
  experiment_name : String
  tags : PyDict
deriving DecidableEq, Repr

namespace WorkflowStep

/-- `WorkflowStep.__init__`, translated line by line, instrumented with the
trace of observable actions.  `default_requires` and `default_provides` are
the class-level lists of the concrete step type.  The tracking validation
raise happens before any `self.<attr> = ...` assignment, so the error branch
carries an empty trace. -/
def initTraced (default_requires default_provides : List String)
    (a : InitArgs) : List TraceEvent × Except StepError StepInstance :=
  let requires := suffixStage a.ml_stage (resolveSide default_requires a.requires)
  let provides := suffixStage a.ml_stage (resolveSide default_provides a.provides)
  let rebind := a.rebind.getD []
  if a.run_id.isSome && a.tracking_uri.isNone then
    ([], .error (.configurationError
      "If tracking is enabled, a `tracking_uri` must be provided"))
  else
    let experiment_name := a.experiment_name.getD "Default"
    let tags := a.tags.getD []
    ([.assign "catalog", .assign "parameters", .assign "name",
      .assign "requires", .assign "provides", .assign "ml_stage",
      .assign "rebind", .assign "run_id", .assign "tracking_uri",
      .assign "experiment_name", .assign "tags"],
     .ok ⟨a.catalog, a.parameters, a.name, requires, provides, a.ml_stage,
          rebind, a.run_id, a.tracking_uri, experiment_name, tags⟩)

/-- `WorkflowStep.__init__` proper: the construction outcome. -/
def init (default_requires default_provides : List String)
    (a : InitArgs) : Except StepError StepInstance :=
  (initTraced default_requires default_provides a).2

/-- The default body of `WorkflowStep.execute`, reached when a concrete
subclass does not override it; `cls` is `self.__class__.__name__`.  The
message is the source's implicit concatenation of the two string literals
with the class name formatted in. -/
def execute (cls : String) : Except StepError Unit :=
  .error (.notImplementedError
    ("`" ++ cls ++ "` is a subclass of WorkflowStep and" ++
     "it must implement the `execute` method"))

end WorkflowStep

/-- Whether a construction outcome is the invalid-configuration error. -/
def isConfigError : Except StepError StepInstance → Bool
  | .error (.configurationError _) => true
  | _ => false

/-- Whether a construction outcome is a successfully built instance. -/
def isOk : Except StepError StepInstance → Bool
  | .ok _ => true
  | _ => false

/-- Stage suffixing rewrites values only: the key list is untouched. -/
theorem suffixStage_map_fst (s : Option String) (m : PyDict) :
    (suffixStage s m).map Prod.fst = m.map Prod.fst := by
  cases s with
  | none => rfl
  | some t =>
    by_cases h : t = "" <;> simp [suffixStage, h, List.map_map]

/-- An explicit non-empty mapping survives `resolveSide` unchanged. -/
theorem resolveSide_some_ne (defaults : List String) (d : PyDict) (h : d ≠ []) :
    resolveSide defaults (some d) = d := by
  simp [resolveSide, pyFalsyDict, List.isEmpty_iff, h]

/-- Inserting `x ↦ x` into an identity association list: the pairs are those
already present plus `(x, x)`. -/
theorem dictInsert_ident_mem (d : PyDict) (x k v : String)
    (hd : ∀ p ∈ d, p.2 = p.1) :
    ((k, v) ∈ dictInsert d x x) ↔ ((k, v) ∈ d ∨ (k = x ∧ v = x)) := by
  unfold dictInsert
  split
  · next hany =>
    have hmap : d.map (fun p => if p.1 == x then (x, x) else p) = d := by
      rw [show d = d.map id by simp]
      rw [List.map_map]
      apply List.map_congr_left
      intro p hp
      by_cases hpx : p.1 == x
      · have h2 : p.2 = p.1 := hd p hp
        have h1 : p.1 = x := by simpa using hpx
        simp [hpx, Function.comp]
        exact Prod.ext h1.symm (by rw [h2, h1])
      · simp [hpx, Function.comp]
    rw [hmap]
    constructor
    · exact Or.inl
    · rintro (hmem | ⟨hk, hv⟩)
      · exact hmem
      · rcases List.any_eq_true.mp hany with ⟨p, hp, hpx⟩
        have h1 : p.1 = x := by simpa using hpx
        have h2 : p.2 = p.1 := hd p hp
        have hpe : p = (x, x) := Prod.ext h1 (by rw [h2, h1])
        rw [hk, hv, ← hpe]
        exact hp
  · simp [List.mem_append, Prod.mk.injEq]

/-- Inserting `x ↦ x` preserves the identity-pair invariant. -/
theorem dictInsert_ident_pres (d : PyDict) (x : String)
    (hd : ∀ p ∈ d, p.2 = p.1) : ∀ p ∈ dictInsert d x x, p.2 = p.1 := by
  unfold dictInsert
  split
  · intro p hp
    rcases List.mem_map.mp hp with ⟨q, hq, hfq⟩
    by_cases hqx : q.1 == x
    · simp [hqx] at hfq; rw [← hfq]
    · simp [hqx] at hfq; rw [← hfq]; exact hd q hq
  · intro p hp
    rcases List.mem_append.mp hp with h | h
    · exact hd p h
    · rw [List.mem_singleton.mp h]

/-- The fold underlying `pyDictComp`, with a generalized accumulator. -/
theorem foldl_comp_mem (l : List String) (acc : PyDict)
    (hacc : ∀ p ∈ acc, p.2 = p.1) (k v : String) :
    ((k, v) ∈ l.foldl (fun d x => dictInsert d x x) acc) ↔
      ((k, v) ∈ acc ∨ (k ∈ l ∧ v = k)) := by
  induction l generalizing acc with
  | nil => simp
  | cons x xs ih =>
    simp only [List.foldl_cons]
    rw [ih _ (dictInsert_ident_pres acc x hacc),
      dictInsert_ident_mem acc x k v hacc]
    constructor
    · rintro ((h | ⟨hk, hv⟩) | ⟨hmem, hv⟩)
      · exact Or.inl h
      · exact Or.inr ⟨by simp [hk], by rw [hv, hk]⟩
      · exact Or.inr ⟨List.mem_cons_of_mem x hmem, hv⟩
    · rintro (h | ⟨hmem, hv⟩)
      · exact Or.inl (Or.inl h)
      · rcases List.mem_cons.mp hmem with hx | hxs
        · exact Or.inl (Or.inr ⟨hx, by rw [hv, hx]⟩)
        · exact Or.inr ⟨hxs, hv⟩

/-- The dict comprehension over a list of names is exactly the identity
mapping over that list: `(k, v)` is an entry iff `k` is in the list and
`v = k`. -/
theorem mem_pyDictComp (l : List String) (k v : String) :
    ((k, v) ∈ pyDictComp l) ↔ (k ∈ l ∧ v = k) := by
  have h := foldl_comp_mem l [] (by simp) k v
  simpa [pyDictComp] using h

/-- Inversion of a successful construction: the tracking validation did not
fire, and every attribute of the instance is determined by the arguments and
default lists exactly as the source computes them. -/
theorem init_ok_inv (dR dP : List String) (a : InitArgs) (inst : StepInstance)
    (hok : WorkflowStep.init dR dP a = .ok inst) :
    (a.run_id.isSome && a.tracking_uri.isNone) = false ∧
    inst = ⟨a.catalog, a.parameters, a.name,
      suffixStage a.ml_stage (resolveSide dR a.requires),
      suffixStage a.ml_stage (resolveSide dP a.provides),
      a.ml_stage, a.rebind.getD [], a.run_id, a.tracking_uri,
      a.experiment_name.getD "Default", a.tags.getD []⟩ := by
  unfold WorkflowStep.init WorkflowStep.initTraced at hok
  by_cases h : (a.run_id.isSome && a.tracking_uri.isNone) = true
  · simp [h] at hok
  · rw [Bool.not_eq_true] at h
    simp only [h, Bool.false_eq_true, if_false] at hok
    exact ⟨h, (Except.ok.injEq _ _ ▸ hok).symm⟩

/-- When the tracking validation fires, construction returns the
invalid-configuration error with an empty action trace. -/
theorem init_error_inv (dR dP : List String) (a : InitArgs)
    (h : (a.run_id.isSome && a.tracking_uri.isNone) = true) :
    WorkflowStep.initTraced dR dP a = ([], .error (.configurationError
      "If tracking is enabled, a `tracking_uri` must be provided")) := by
  unfold WorkflowStep.initTraced
  simp [h]

/-- When the tracking validation does not fire, the action trace is exactly
the eleven attribute assignments of the source, in order. -/
theorem init_ok_trace (dR dP : List String) (a : InitArgs)
    (h : (a.run_id.isSome && a.tracking_uri.isNone) = false) :
    (WorkflowStep.initTraced dR dP a).1 =
      [.assign "catalog", .assign "parameters", .assign "name",
       .assign "requires", .assign "provides", .assign "ml_stage",
       .assign "rebind", .assign "run_id", .assign "tracking_uri",
       .assign "experiment_name", .assign "tags"] := by
  unfold WorkflowStep.initTraced
  simp [h]

/-- Arguments witnessing that an explicitly empty `requires` mapping is not
used as given: `requires = some []`, against defaults `["meter_data"]`. -/
def argsC1 : InitArgs :=
  ⟨0, 0, none, some [], none, none, none, none, none, none, none⟩

/-- The instance the source builds from `argsC1`. -/
def stepC1 : StepInstance :=
  ⟨0, 0, none, [("meter_data", "meter_data")], [], none, [], none, none,
   "Default", []⟩

/-- C1 counterexample: constructing with an explicitly empty `requires`
mapping and `default_requires = ["meter_data"]` succeeds, but the resulting
`requires` keys are `["meter_data"]`, not the empty key list of the supplied
mapping — the code tests Python truthiness (`if not requires:`), so an empty
explicit mapping falls back to the defaults, contradicting the claim. -/
theorem explicit_empty_mapping_counterexample :
    WorkflowStep.init ["meter_data"] [] argsC1 = .ok stepC1 ∧
    argsC1.requires = some [] ∧
    stepC1.requires.map Prod.fst = ["meter_data"] ∧
    ["meter_data"] ≠ ([] : List String) := by
  exact ⟨rfl, rfl, rfl, by decide⟩

/-- C1 (amended): on every successful construction, whenever an explicit
NON-EMPTY `requires` mapping is supplied — regardless of what was supplied
for `provides` — the resulting `requires` is that mapping with only stage
suffixing applied to its values, so its keys equal exactly the supplied
keys and `default_requires` is never consulted or merged in; symmetrically
and independently for a non-empty explicit `provides` and
`default_provides`.  (An explicitly empty mapping is falsy in the source's
`if not requires:` test and is replaced by the identity mapping over the
defaults.) -/
theorem explicit_nonempty_override_used_as_given
    (dR dP : List String) (a : InitArgs) (inst : StepInstance)
    (hok : WorkflowStep.init dR dP a = .ok inst) :
    (∀ req, a.requires = some req → req ≠ [] →
      inst.requires = suffixStage a.ml_stage req ∧
      inst.requires.map Prod.fst = req.map Prod.fst) ∧
    (∀ prov, a.provides = some prov → prov ≠ [] →
      inst.provides = suffixStage a.ml_stage prov ∧
      inst.provides.map Prod.fst = prov.map Prod.fst) := by
  obtain ⟨-, hinst⟩ := init_ok_inv dR dP a inst hok
  subst hinst
  constructor
  · intro req hreq hne
    simp only [hreq, resolveSide_some_ne _ _ hne]
    exact ⟨trivial, suffixStage_map_fst _ _⟩
  · intro prov hprov hne
    simp only [hprov, resolveSide_some_ne _ _ hne]
    exact ⟨trivial, suffixStage_map_fst _ _⟩

/-- Arguments for the C1 witness: the spec's scenario of an explicit
non-empty `requires` override with `provides` left to default, no stage. -/
def argsC1w : InitArgs :=
  ⟨0, 0, none, some [("raw", "sensor_feed")], none,
   none, none, none, none, none, none⟩

/-- The instance the source builds from `argsC1w` with defaults
`["meter_data"]` and `["clean_data"]`. -/
def stepC1w : StepInstance :=
  ⟨0, 0, none, [("raw", "sensor_feed")], [("clean_data", "clean_data")],
   none, [], none, none, "Default", []⟩

/-- Witness for the amended C1 at a concrete input with only the
`requires` side explicitly overridden. -/
theorem explicit_nonempty_override_used_as_given_witness :
    (∀ req, argsC1w.requires = some req → req ≠ [] →
      stepC1w.requires = suffixStage argsC1w.ml_stage req ∧
      stepC1w.requires.map Prod.fst = req.map Prod.fst) ∧
    (∀ prov, argsC1w.provides = some prov → prov ≠ [] →
      stepC1w.provides = suffixStage argsC1w.ml_stage prov ∧
      stepC1w.provides.map Prod.fst = prov.map Prod.fst) :=
  explicit_nonempty_override_used_as_given ["meter_data"] ["clean_data"]
    argsC1w stepC1w rfl

/-- C2: for every successful construction whose `ml_stage` is a non-empty
stage label `s`, both resulting mappings are the pre-suffix resolved
mappings with every value rewritten to `<value>_<s>`, and the key lists of
both mappings are exactly the pre-suffix key lists — whether the pre-suffix
mapping came from the defaults or from an explicit override. -/
theorem stage_suffix_rewrites_values_only
    (dR dP : List String) (a : InitArgs) (s : String) (inst : StepInstance)
    (hs : a.ml_stage = some s) (hne : s ≠ "")
    (hok : WorkflowStep.init dR dP a = .ok inst) :
    inst.requires =
      (resolveSide dR a.requires).map (fun p => (p.1, p.2 ++ "_" ++ s)) ∧
    inst.provides =
      (resolveSide dP a.provides).map (fun p => (p.1, p.2 ++ "_" ++ s)) ∧
    inst.requires.map Prod.fst = (resolveSide dR a.requires).map Prod.fst ∧
    inst.provides.map Prod.fst = (resolveSide dP a.provides).map Prod.fst := by
  obtain ⟨-, hinst⟩ := init_ok_inv dR dP a inst hok
  subst hinst
  refine ⟨?_, ?_, ?_, ?_⟩
  · simp [hs, suffixStage, hne]
  · simp [hs, suffixStage, hne]
  · exact suffixStage_map_fst _ _
  · exact suffixStage_map_fst _ _

/-- Arguments for the C2 witness: defaults on both sides, stage `train`. -/
def argsC2 : InitArgs :=
  ⟨0, 0, none, none, none, some "train", none, none, none, none, none⟩

/-- The instance the source builds from `argsC2` with defaults
`["meter_data"]` and `["clean_data"]`. -/
def stepC2 : StepInstance :=
  ⟨0, 0, none, [("meter_data", "meter_data_train")],
   [("clean_data", "clean_data_train")], some "train", [], none, none,
   "Default", []⟩

/-- Witness for C2 at a concrete input. -/
theorem stage_suffix_rewrites_values_only_witness :
    stepC2.requires = (resolveSide ["meter_data"] argsC2.requires).map
      (fun p => (p.1, p.2 ++ "_" ++ "train")) ∧
    stepC2.provides = (resolveSide ["clean_data"] argsC2.provides).map
      (fun p => (p.1, p.2 ++ "_" ++ "train")) ∧
    stepC2.requires.map Prod.fst =
      (resolveSide ["meter_data"] argsC2.requires).map Prod.fst ∧
    stepC2.provides.map Prod.fst =
      (resolveSide ["clean_data"] argsC2.provides).map Prod.fst :=
  stage_suffix_rewrites_values_only ["meter_data"] ["clean_data"] argsC2
    "train" stepC2 rfl (by decide) rfl

/-- C3: for every concrete step type with non-empty default lists,
constructing with no explicit override and `ml_stage = None` yields
`requires` and `provides` that are exactly the identity mappings over the
respective default lists: `(k, v)` is an entry iff `k` is a default base
name and `v = k`. -/
theorem defaults_identity_mapping
    (dR dP : List String) (a : InitArgs) (inst : StepInstance)
    (hR : dR ≠ []) (hP : dP ≠ [])
    (hreq : a.requires = none) (hprov : a.provides = none)
    (hstage : a.ml_stage = none)
    (hok : WorkflowStep.init dR dP a = .ok inst) :
    (∀ k v, ((k, v) ∈ inst.requires) ↔ (k ∈ dR ∧ v = k)) ∧
    (∀ k v, ((k, v) ∈ inst.provides) ↔ (k ∈ dP ∧ v = k)) := by
  obtain ⟨-, hinst⟩ := init_ok_inv dR dP a inst hok
  subst hinst
  constructor <;> intro k v <;>
    simp [hreq, hprov, hstage, suffixStage, resolveSide, pyFalsyDict,
      mem_pyDictComp]

/-- Arguments for the C3 witness: nothing supplied beyond the mandatory
collaborators. -/
def argsC3 : InitArgs :=
  ⟨0, 0, none, none, none, none, none, none, none, none, none⟩

/-- The instance the source builds from `argsC3` with defaults
`["meter_data", "weather"]` and `["clean_data"]`. -/
def stepC3 : StepInstance :=
  ⟨0, 0, none, [("meter_data", "meter_data"), ("weather", "weather")],
   [("clean_data", "clean_data")], none, [], none, none, "Default", []⟩

/-- Witness for C3 at a concrete input. -/
theorem defaults_identity_mapping_witness :
    (∀ k v, ((k, v) ∈ stepC3.requires) ↔
      (k ∈ ["meter_data", "weather"] ∧ v = k)) ∧
    (∀ k v, ((k, v) ∈ stepC3.provides) ↔ (k ∈ ["clean_data"] ∧ v = k)) :=
  defaults_identity_mapping ["meter_data", "weather"] ["clean_data"] argsC3
    stepC3 (by decide) (by decide) rfl rfl rfl rfl

/-- C4: construction yields the invalid-configuration error exactly when
`run_id` is set and `tracking_uri` is not, and yields a built instance in
every other case — in particular a `tracking_uri` without a `run_id` never
raises. -/
theorem tracking_validation_iff (dR dP : List String) (a : InitArgs) :
    isConfigError (WorkflowStep.init dR dP a) =
      (a.run_id.isSome && a.tracking_uri.isNone) ∧
    isOk (WorkflowStep.init dR dP a) =
      !(a.run_id.isSome && a.tracking_uri.isNone) := by
  by_cases h : (a.run_id.isSome && a.tracking_uri.isNone) = true
  · unfold WorkflowStep.init
    rw [init_error_inv dR dP a h]
    simp [isConfigError, isOk, h]
  · rw [Bool.not_eq_true] at h
    unfold WorkflowStep.init WorkflowStep.initTraced
    simp [h, isConfigError, isOk]

/-- C5: the default `execute` body always fails with the
unimplemented-operation error, and its message contains the concrete
subclass's name (`self.__class__.__name__`) verbatim. -/
theorem execute_default_raises_not_implemented (cls : String) :
    ∃ m, WorkflowStep.execute cls = .error (.notImplementedError m) ∧
      ∃ pre post, m = pre ++ (cls ++ post) := by
  refine ⟨_, rfl, "`",
    "` is a subclass of WorkflowStep and" ++
      "it must implement the `execute` method", ?_⟩
  rw [String.append_assoc, String.append_assoc]

/-- C6: on every successful construction, `rebind` and `tags` become the
empty mapping exactly when the argument was absent and otherwise are stored
unchanged (including an explicitly empty mapping), and `experiment_name`
becomes `"Default"` exactly when absent and otherwise is the supplied
value. -/
theorem construction_defaulting
    (dR dP : List String) (a : InitArgs) (inst : StepInstance)
    (hok : WorkflowStep.init dR dP a = .ok inst) :
    (a.rebind = none → inst.rebind = []) ∧
    (∀ m, a.rebind = some m → inst.rebind = m) ∧
    (a.tags = none → inst.tags = []) ∧
    (∀ m, a.tags = some m → inst.tags = m) ∧
    (a.experiment_name = none → inst.experiment_name = "Default") ∧
    (∀ s, a.experiment_name = some s → inst.experiment_name = s) := by
  obtain ⟨-, hinst⟩ := init_ok_inv dR dP a inst hok
  subst hinst
  exact ⟨fun h => by simp [h], fun m hm => by simp [hm],
    fun h => by simp [h], fun m hm => by simp [hm],
    fun h => by simp [h], fun s hs => by simp [hs]⟩

/-- Arguments for the C6 witness: explicitly empty `rebind`, a non-empty
`tags` mapping, and an explicit experiment name. -/
def argsC6 : InitArgs :=
  ⟨0, 0, none, none, none, none, some [], none, none, some "exp1",
   some [("team", "hebes")]⟩

/-- The instance the source builds from `argsC6` with empty defaults. -/
def stepC6 : StepInstance :=
  ⟨0, 0, none, [], [], none, [], none, none, "exp1", [("team", "hebes")]⟩

/-- Witness for C6 at a concrete input. -/
theorem construction_defaulting_witness :
    (argsC6.rebind = none → stepC6.rebind = []) ∧
    (∀ m, argsC6.rebind = some m → stepC6.rebind = m) ∧
    (argsC6.tags = none → stepC6.tags = []) ∧
    (∀ m, argsC6.tags = some m → stepC6.tags = m) ∧
    (argsC6.experiment_name = none → stepC6.experiment_name = "Default") ∧
    (∀ s, argsC6.experiment_name = some s → stepC6.experiment_name = s) :=
  construction_defaulting [] [] argsC6 stepC6 rfl

/-- C7: when the tracking validation fires (`run_id` set, `tracking_uri`
absent), construction performs no attribute assignment at all — the action
trace is empty, so no partial instance is produced — and the outcome is the
invalid-configuration error. -/
theorem config_error_no_partial_instance
    (dR dP : List String) (a : InitArgs)
    (h1 : a.run_id ≠ none) (h2 : a.tracking_uri = none) :
    (WorkflowStep.initTraced dR dP a).1 = [] ∧
    isConfigError (WorkflowStep.init dR dP a) = true := by
  have hb : (a.run_id.isSome && a.tracking_uri.isNone) = true := by
    simp [Option.isSome_iff_ne_none, h1, h2]
  constructor
  · rw [init_error_inv dR dP a hb]
  · unfold WorkflowStep.init
    rw [init_error_inv dR dP a hb]
    rfl

/-- Arguments for the C7 witness: a `run_id` with no `tracking_uri`. -/
def argsC7 : InitArgs :=
  ⟨0, 0, none, none, none, none, none, some "abc", none, none, none⟩

/-- Witness for C7 at a concrete input. -/
theorem config_error_no_partial_instance_witness :
    (WorkflowStep.initTraced ["meter_data"] ["clean_data"] argsC7).1 = [] ∧
    isConfigError
      (WorkflowStep.init ["meter_data"] ["clean_data"] argsC7) = true :=
  config_error_no_partial_instance ["meter_data"] ["clean_data"] argsC7
    (by decide) rfl

/-- C8: construction is deterministic — equal argument tuples give
identical traced outcomes — and effect-free: every action it performs is an
attribute assignment on the instance itself, never a catalog operation, a
tracking-backend call, or a mutation of an argument mapping. -/
theorem construction_pure_and_effect_free
    (dR dP : List String) (a b : InitArgs) (hab : a = b) :
    WorkflowStep.initTraced dR dP a = WorkflowStep.initTraced dR dP b ∧
    ((WorkflowStep.initTraced dR dP a).1.all TraceEvent.isAssign) = true := by
  subst hab
  refine ⟨rfl, ?_⟩
  by_cases h : (a.run_id.isSome && a.tracking_uri.isNone) = true
  · rw [init_error_inv dR dP a h]
    rfl
  · rw [Bool.not_eq_true] at h
    rw [init_ok_trace dR dP a h]
    rfl

/-- Arguments for the C8 witness. -/
def argsC8 : InitArgs :=
  ⟨0, 0, some "day_typing", none, none, some "test", none, some "abc",
   some "http://localhost:5000", none, none⟩

/-- Witness for C8 at a concrete input. -/
theorem construction_pure_and_effect_free_witness :
    WorkflowStep.initTraced ["meter_data"] ["clean_data"] argsC8 =
      WorkflowStep.initTraced ["meter_data"] ["clean_data"] argsC8 ∧
    ((WorkflowStep.initTraced ["meter_data"] ["clean_data"] argsC8).1.all
      TraceEvent.isAssign) = true :=
  construction_pure_and_effect_free ["meter_data"] ["clean_data"] argsC8
    argsC8 rfl

/-- C9: the tracking validation triggers for any non-None `run_id`,
including the empty string: `run_id = ""` with `tracking_uri = None` yields
the invalid-configuration error. -/
theorem empty_run_id_triggers_validation
    (dR dP : List String) (a : InitArgs)
    (h1 : a.run_id = some "") (h2 : a.tracking_uri = none) :
    isConfigError (WorkflowStep.init dR dP a) = true := by
  have hb : (a.run_id.isSome && a.tracking_uri.isNone) = true := by
    simp [h1, h2]
  unfold WorkflowStep.init
  rw [init_error_inv dR dP a hb]
  rfl

/-- Arguments for the C9 witness: `run_id` the empty string. -/
def argsC9 : InitArgs :=
  ⟨0, 0, none, none, none, none, none, some "", none, none, none⟩

/-- Witness for C9 at a concrete input. -/
theorem empty_run_id_triggers_validation_witness :
    isConfigError (WorkflowStep.init [] [] argsC9) = true :=
  empty_run_id_triggers_validation [] [] argsC9 rfl rfl

/-- C10: with `ml_stage` the empty string, no suffix is appended — both
resulting mappings equal the pre-suffix resolved mappings — yet the stored
`ml_stage` attribute is the empty string, not absent: suffixing is gated on
Python truthiness while the attribute stores the argument as passed. -/
theorem empty_ml_stage_stored_without_suffix
    (dR dP : List String) (a : InitArgs) (inst : StepInstance)
    (hs : a.ml_stage = some "")
    (hok : WorkflowStep.init dR dP a = .ok inst) :
    inst.requires = resolveSide dR a.requires ∧
    inst.provides = resolveSide dP a.provides ∧
    inst.ml_stage = some "" := by
  obtain ⟨-, hinst⟩ := init_ok_inv dR dP a inst hok
  subst hinst
  simp [hs, suffixStage]

/-- Arguments for the C10 witness: `ml_stage` the empty string. -/
def argsC10 : InitArgs :=
  ⟨0, 0, none, none, none, some "", none, none, none, none, none⟩

/-- The instance the source builds from `argsC10` with defaults
`["meter_data"]` and `["clean_data"]`. -/
def stepC10 : StepInstance :=
  ⟨0, 0, none, [("meter_data", "meter_data")], [("clean_data", "clean_data")],
   some "", [], none, none, "Default", []⟩

/-- Witness for C10 at a concrete input. -/
theorem empty_ml_stage_stored_without_suffix_witness :
    stepC10.requires = resolveSide ["meter_data"] argsC10.requires ∧
    stepC10.provides = resolveSide ["clean_data"] argsC10.provides ∧
    stepC10.ml_stage = some "" :=
  empty_ml_stage_stored_without_suffix ["meter_data"] ["clean_data"] argsC10
    stepC10 rfl rfl

end GbMeter
